import Mathlib

/-!
Verification of the Router/DNS configuration subsystem of the repository
(wgengine/router): the backend-detection probes, the DNS appliers, and the
Windows router facade. Go functions are shallowly embedded as Lean
functions; the ambient system (installed binaries, service state, the
resolver file, the bus, the tunnel interface) is passed in explicitly as
an environment value, and side effects (bus calls, executed commands,
unregister invocations) are returned as explicit traces.
-/

namespace TailscaleRouter

/-- Embedding of netaddr.IP as used by the router code: either an IPv4
address with four byte components or an IPv6 address given by its 16
bytes. -/
inductive IP
  | v4 (a b c d : Nat)
  | v6 (bytes : List Nat)
deriving DecidableEq

/-- Embedding of netaddr.IP.As16: the 16-byte representation; an IPv4
address maps to the IPv4-in-IPv6 form (ten zero bytes, two 0xff bytes,
then the four address bytes). -/
def IP.As16 : IP → List Nat
  | .v4 a b c d => List.replicate 10 0 ++ [255, 255, a, b, c, d]
  | .v6 bytes => bytes

/-- Embedding of netaddr.IP.Is4: whether the address is IPv4. -/
def IP.Is4 : IP → Bool
  | .v4 _ _ _ _ => true
  | .v6 _ => false

/-- Embedding of DNSConfig (wgengine/router): ordered nameservers and
search domains. -/
structure DNSConfig where
  Nameservers : List IP
  Domains : List String
deriving DecidableEq

/-- Embedding of resolvedListenAddr (dns_resolved.go): the hard-coded
listen address 127.0.0.53 of the resolved stub resolver. -/
def resolvedListenAddr : IP := IP.v4 127 0 0 53

/-- Environment consumed by resolvedIsActive: whether the systemctl
binary is on the path (exec.LookPath), whether "systemctl is-active
systemd-resolved" ran with exit status 0, and the result of reading the
resolver file (dnsReadConfig is outside the given sources; its result is
taken as an input, none meaning it returned an error). -/
structure ResolvedDetectEnv where
  systemctlInstalled : Bool
  isActiveRunOk : Bool
  resolvConf : Option DNSConfig
deriving DecidableEq

/-- Embedding of resolvedIsActive (dns_resolved.go): resolved manages
system DNS when systemctl exists, the service reports active, the
resolver file is readable, and its sole nameserver is the resolved stub
address. -/
def resolvedIsActive (env : ResolvedDetectEnv) : Bool :=
  if env.systemctlInstalled = false then false
  else if env.isActiveRunOk = false then false
  else
    match env.resolvConf with
    | none => false
    | some config =>
        match config.Nameservers with
        | [addr] => decide (addr = resolvedListenAddr)
        | _ => false

/-- Whether a pattern occurs at the head of a character list. -/
def leadsWith : List Char → List Char → Bool
  | [], _ => true
  | _ :: _, [] => false
  | p :: ps, c :: cs => p == c && leadsWith ps cs

/-- Embedding of bytes.Contains: whether the pattern occurs anywhere in
the character list. -/
def containsSub (pat : List Char) : List Char → Bool
  | [] => leadsWith pat []
  | c :: cs => leadsWith pat (c :: cs) || containsSub pat cs

/-- The literal token scanned for in the resolver file's comments. -/
def resolvconfWord : List Char := "resolvconf".toList

/-- A line that terminates the comment scan in resolvconfIsActive:
nonempty and not starting with the comment character. -/
def isDataLine (line : List Char) : Bool :=
  match line with
  | [] => false
  | c :: _ => c != '#'

/-- Embedding of the scanner loop of resolvconfIsActive
(router_default.go): walk the lines; a nonempty non-comment line stops
the scan with false; a line containing "resolvconf" stops it with true;
end of file yields false. -/
def resolvconfScan : List (List Char) → Bool
  | [] => false
  | line :: rest =>
      if isDataLine line then false
      else if containsSub resolvconfWord line then true
      else resolvconfScan rest

/-- The leading comment block of a resolver file: the lines scanned by
resolvconfScan before the first nonempty non-comment line. -/
def commentBlock : List (List Char) → List (List Char)
  | [] => []
  | line :: rest => if isDataLine line then [] else line :: commentBlock rest

/-- The first nonempty non-comment line of a resolver file, if any. -/
def firstDataLine : List (List Char) → Option (List Char)
  | [] => none
  | line :: rest => if isDataLine line then some line else firstDataLine rest

/-- Environment consumed by resolvconfIsActive: whether a resolvconf
binary is on the path (exec.LookPath), and the resolver file's lines
(none when /etc/resolv.conf cannot be opened). -/
structure ResolvconfDetectEnv where
  binInstalled : Bool
  resolvFile : Option (List (List Char))
deriving DecidableEq

/-- Embedding of resolvconfIsActive (router_default.go): true when the
resolvconf binary exists, the resolver file opens, and the comment scan
finds the word "resolvconf". -/
def resolvconfIsActive (env : ResolvconfDetectEnv) : Bool :=
  if env.binInstalled = false then false
  else
    match env.resolvFile with
    | none => false
    | some lines => resolvconfScan lines

/-- Outcome of running the probe command "resolvconf -v" (exec.Cmd.Run):
either the process ran to completion with an exit code (0 meaning Run
returned a nil error, nonzero meaning an exec.ExitError carrying that
code), or the command could not be run at all (an error that is not an
exec.ExitError, e.g. the binary vanished). -/
inductive ProbeResult
  | ranExit (code : Int)
  | failedToRun
deriving DecidableEq

/-- Embedding of resolvconfImplementation (router_default.go). -/
inductive resolvconfImplementation
  | resolvconfOpenresolv
  | resolvconfLegacy
deriving DecidableEq

/-- Embedding of getResolvconfImplementation (router_default.go): the
legacy implementation exactly when the probe exits with code 99; exit 0
(nil error), any other exit code, and failure to run all yield
openresolv. -/
def getResolvconfImplementation (probe : ProbeResult) : resolvconfImplementation :=
  match probe with
  | .failedToRun => .resolvconfOpenresolv
  | .ranExit code =>
      if code = 0 then .resolvconfOpenresolv
      else if code = 99 then .resolvconfLegacy
      else .resolvconfOpenresolv

/-- The enumerated backend kinds of the spec's data model. -/
inductive BackendKind
  | direct
  | resolvconfOpenresolv
  | resolvconfLegacy
  | resolved
deriving DecidableEq

/-- Whether a backend kind is one of the two resolvconf variants. -/
def BackendKind.isResolvconfVariant : BackendKind → Bool
  | .resolvconfOpenresolv => true
  | .resolvconfLegacy => true
  | _ => false

/-- Modelled from the spec: the DNS manager's backend detection, which
composes the probes in priority order (resolved first, then resolvconf
with its implementation sub-probe, else direct). The composing function
itself is not among the given sources; the three probes it calls are
embedded above from the sources. -/
def detectBackend (renv : ResolvedDetectEnv) (cenv : ResolvconfDetectEnv)
    (probe : ProbeResult) : BackendKind :=
  if resolvedIsActive renv then .resolved
  else if resolvconfIsActive cenv then
    match getResolvconfImplementation probe with
    | .resolvconfOpenresolv => .resolvconfOpenresolv
    | .resolvconfLegacy => .resolvconfLegacy
  else .direct

/-- Embedding of the linux address-family constants used by the
resolved applier (unix.AF_INET and unix.AF_INET6). -/
def AF_INET : Int := 2

/-- The linux AF_INET6 address-family constant. -/
def AF_INET6 : Int := 10

/-- Embedding of resolvedLinkNameserver (dns_resolved.go): the structured
record sent over the bus for one nameserver. -/
structure resolvedLinkNameserver where
  Family : Int
  Address : List Nat
deriving DecidableEq

/-- Embedding of resolvedLinkDomain (dns_resolved.go): the structured
record sent over the bus for one search domain. -/
structure resolvedLinkDomain where
  Domain : String
  RoutingOnly : Bool
deriving DecidableEq

/-- The per-nameserver conversion performed in dnsResolvedUp's loop: an
IPv4 server is tagged AF_INET with the last 4 bytes of its 16-byte form,
any other server is tagged AF_INET6 with all 16 bytes. -/
def linkNameserverOf (server : IP) : resolvedLinkNameserver :=
  let ip := server.As16
  if server.Is4 then ⟨AF_INET, ip.drop 12⟩ else ⟨AF_INET6, ip⟩

/-- A remote call issued on the system bus to resolved, addressed by the
OS interface index. -/
inductive BusCall
  | setLinkDNS (ifindex : Int) (nameservers : List resolvedLinkNameserver)
  | setLinkDomains (ifindex : Int) (domains : List resolvedLinkDomain)
  | revertLink (ifindex : Int)
deriving DecidableEq

/-- Errors returned by the resolved applier, mirroring the wrapped
errors of dns_resolved.go. -/
inductive ResolvedErr
  | busConnect
  | gettingIface (msg : String)
  | notReady
  | setLinkDNSFailed
  | setLinkDomainsFailed
  | revertLinkFailed
deriving DecidableEq

/-- Embedding of errNotReady (dns_resolved.go): the retryable
interface-not-ready error. -/
def errNotReady : ResolvedErr := .notReady

/-- Outcome of interfaces.Tailscale(): the lookup itself failed, or it
succeeded but found no tailscale interface (iface nil), or it found the
interface with its OS index. -/
inductive IfaceLookup
  | lookupErr (msg : String)
  | notFound
  | found (index : Int)
deriving DecidableEq

/-- Environment consumed by the resolved applier: whether connecting to
the system bus succeeds, the tailscale-interface lookup outcome, and
whether each of the three bus methods succeeds when called. -/
structure ResolvedBusEnv where
  busOk : Bool
  iface : IfaceLookup
  setLinkDNSOk : Bool
  setLinkDomainsOk : Bool
  revertLinkOk : Bool
deriving DecidableEq

/-- Embedding of dnsResolvedUp (dns_resolved.go). Returns the trace of
bus calls actually issued, in order, together with the result: connect
to the bus, resolve the tunnel interface (error, or errNotReady when
absent), then SetLinkDNS with the converted nameservers, then
SetLinkDomains with every domain flagged RoutingOnly = false. -/
def dnsResolvedUp (config : DNSConfig) (env : ResolvedBusEnv) :
    List BusCall × Except ResolvedErr Unit :=
  if env.busOk = false then ([], .error .busConnect)
  else
    match env.iface with
    | .lookupErr m => ([], .error (.gettingIface m))
    | .notFound => ([], .error errNotReady)
    | .found idx =>
        let linkNameservers := config.Nameservers.map linkNameserverOf
        let dnsCall := BusCall.setLinkDNS idx linkNameservers
        if env.setLinkDNSOk = false then ([dnsCall], .error .setLinkDNSFailed)
        else
          let linkDomains := config.Domains.map (fun d => resolvedLinkDomain.mk d false)
          let domainsCall := BusCall.setLinkDomains idx linkDomains
          if env.setLinkDomainsOk = false then
            ([dnsCall, domainsCall], .error .setLinkDomainsFailed)
          else ([dnsCall, domainsCall], .ok ())

/-- Embedding of dnsResolvedDown (dns_resolved.go): connect to the bus,
resolve the tunnel interface (error, or errNotReady when absent), then
issue the single RevertLink call. -/
def dnsResolvedDown (env : ResolvedBusEnv) : List BusCall × Except ResolvedErr Unit :=
  if env.busOk = false then ([], .error .busConnect)
  else
    match env.iface with
    | .lookupErr m => ([], .error (.gettingIface m))
    | .notFound => ([], .error errNotReady)
    | .found idx =>
        if env.revertLinkOk = false then ([.revertLink idx], .error .revertLinkFailed)
        else ([.revertLink idx], .ok ())

/-- A child operation run by a DNS applier: an external command or a bus
round-trip, together with the explicit deadline attached to it in the
source (none when the source attaches no deadline). -/
structure ChildOp where
  desc : String
  timeoutMs : Option Nat
deriving DecidableEq

/-- Embedding of dnsReconfigTimeout (dns_resolved.go), in milliseconds:
one second. -/
def dnsReconfigTimeoutMs : Nat := 1000

/-- The child-operation view of a bus call issued by the resolved
applier: every bus call in dns_resolved.go goes through CallWithContext
with a context bounded by dnsReconfigTimeout. -/
def childOpOfBusCall : BusCall → ChildOp
  | .setLinkDNS _ _ => ⟨"org.freedesktop.resolve1.Manager.SetLinkDNS", some dnsReconfigTimeoutMs⟩
  | .setLinkDomains _ _ => ⟨"org.freedesktop.resolve1.Manager.SetLinkDomains", some dnsReconfigTimeoutMs⟩
  | .revertLink _ => ⟨"org.freedesktop.resolve1.Manager.RevertLink", some dnsReconfigTimeoutMs⟩

/-- The child operations run by a dnsResolvedUp call. -/
def dnsResolvedUpChildOps (config : DNSConfig) (env : ResolvedBusEnv) : List ChildOp :=
  (dnsResolvedUp config env).1.map childOpOfBusCall

/-- The child operations run by a dnsResolvedDown call. -/
def dnsResolvedDownChildOps (env : ResolvedBusEnv) : List ChildOp :=
  (dnsResolvedDown env).1.map childOpOfBusCall

/-- Embedding of resolvconfConfigName (router_default.go). -/
def resolvconfConfigName : String := "tun-tailscale.inet"

/-- Environment consumed by the resolvconf applier: the probe outcome
and whether the add and delete commands succeed when run. -/
structure ResolvconfEnv where
  probe : ProbeResult
  addCmdOk : Bool
  delCmdOk : Bool
deriving DecidableEq

/-- The probe command run by getResolvconfImplementation: exec.Command
with no context, hence no deadline. -/
def resolvconfProbeCmd : ChildOp := ⟨"resolvconf -v", none⟩

/-- The add command run by dnsResolvconfUp for each implementation:
exec.Command with no context, hence no deadline. -/
def resolvconfAddCmd (impl : resolvconfImplementation) : ChildOp :=
  match impl with
  | .resolvconfOpenresolv => ⟨"resolvconf -m 0 -x -a " ++ resolvconfConfigName, none⟩
  | .resolvconfLegacy => ⟨"resolvconf -a " ++ resolvconfConfigName, none⟩

/-- The delete command run by dnsResolvconfDown for each implementation:
exec.Command with no context, hence no deadline. -/
def resolvconfDelCmd (impl : resolvconfImplementation) : ChildOp :=
  match impl with
  | .resolvconfOpenresolv => ⟨"resolvconf -f -d " ++ resolvconfConfigName, none⟩
  | .resolvconfLegacy => ⟨"resolvconf -d " ++ resolvconfConfigName, none⟩

/-- Embedding of dnsResolvconfUp (router_default.go): run the probe to
classify the implementation, then run the matching add command with the
configuration streamed to its standard input; returns the child
operations run, in order, and the result. -/
def dnsResolvconfUp (_config : DNSConfig) (env : ResolvconfEnv) :
    List ChildOp × Except String Unit :=
  let impl := getResolvconfImplementation env.probe
  let ops := [resolvconfProbeCmd, resolvconfAddCmd impl]
  if env.addCmdOk then (ops, .ok ())
  else (ops, .error ("running " ++ (resolvconfAddCmd impl).desc))

/-- Embedding of dnsResolvconfDown (router_default.go): run the probe,
then the matching delete command. -/
def dnsResolvconfDown (env : ResolvconfEnv) : List ChildOp × Except String Unit :=
  let impl := getResolvconfImplementation env.probe
  let ops := [resolvconfProbeCmd, resolvconfDelCmd impl]
  if env.delCmdOk then (ops, .ok ())
  else (ops, .error ("running " ++ (resolvconfDelCmd impl).desc))

/-- Outcome of winRouter.Up as observable by the rest of the system:
Up returned nil with the registered callback handle stored in the
router, Up returned an error to its caller, or the process was
terminated by log.Fatalf. -/
inductive UpOutcome
  | ok (storedCallback : Option Nat)
  | returnedErr (e : String)
  | processFatal (msg : String)
deriving DecidableEq

/-- Embedding of (winRouter).Up (router_windows.go): on a successful
monitorDefaultRoutes registration the handle is stored and nil is
returned; on a registration failure the code calls log.Fatalf, which
terminates the process. -/
def winRouterUp (registration : Except String Nat) : UpOutcome :=
  match registration with
  | .error e => .processFatal ("MonitorDefaultRoutes: " ++ e)
  | .ok h => .ok (some h)

/-- Modelled from the spec: RouterConfig, the route/address intent plus
DNS carried into Set; its definition is outside the given sources and
its contents are immaterial to the claims proved here. -/
structure RouterConfig where
  dns : DNSConfig
  routes : List String
deriving DecidableEq

/-- Modelled from the spec: shutdownConfig, the canonical empty shutdown
configuration substituted for a nil Set argument; defined outside the
given sources. -/
def shutdownConfig : RouterConfig := ⟨⟨[], []⟩, []⟩

/-- Embedding of (winRouter).Set (router_windows.go): a nil config is
replaced by shutdownConfig, then configureInterface (outside the given
sources, abstracted as a function argument) is applied and its error, if
any, is returned. -/
def winRouterSet (configureInterface : RouterConfig → Except String Unit)
    (cfg : Option RouterConfig) : Except String Unit :=
  let c := match cfg with
    | none => shutdownConfig
    | some c0 => c0
  match configureInterface c with
  | .error e => .error e
  | .ok _ => .ok ()

/-- The winRouter state relevant to Close: the stored route-change
callback handle, if any. -/
structure WinRouterState where
  routeChangeCallback : Option Nat
deriving DecidableEq

/-- Embedding of (winRouter).Close (router_windows.go): when a callback
handle is stored, invoke its Unregister (recorded in the returned
trace); the stored field is not modified by Close, and nil is always
returned. -/
def winRouterClose (r : WinRouterState) : WinRouterState × List Nat × Except String Unit :=
  match r.routeChangeCallback with
  | some h => (r, [h], .ok ())
  | none => (r, [], .ok ())

/-- Declarative characterization of resolvedIsActive: it reports true
exactly when systemctl is installed, the service reports active, and the
resolver file read yields exactly the resolved stub nameserver. -/
theorem resolvedIsActive_iff (env : ResolvedDetectEnv) :
    resolvedIsActive env = true ↔
      env.systemctlInstalled = true ∧ env.isActiveRunOk = true ∧
        ∃ c, env.resolvConf = some c ∧ c.Nameservers = [resolvedListenAddr] := by
  rcases env with ⟨si, ia, rc⟩
  cases si
  · simp [resolvedIsActive]
  · cases ia
    · simp [resolvedIsActive]
    · cases rc with
      | none => simp [resolvedIsActive]
      | some c =>
          rcases c with ⟨ns, ds⟩
          rcases ns with _ | ⟨a, _ | ⟨b, rest⟩⟩ <;> simp [resolvedIsActive]

/-- The spec-modelled detector returns resolved exactly when the
resolved probe reports active. -/
theorem detectBackend_eq_resolved_iff (renv : ResolvedDetectEnv)
    (cenv : ResolvconfDetectEnv) (p : ProbeResult) :
    detectBackend renv cenv p = BackendKind.resolved ↔ resolvedIsActive renv = true := by
  unfold detectBackend
  by_cases h : resolvedIsActive renv
  · simp [h]
  · simp only [h]
    simp only [Bool.false_eq_true, if_false]
    by_cases h2 : resolvconfIsActive cenv
    · simp only [h2, if_true]
      cases hg : getResolvconfImplementation p <;> simp [h]
    · simp [h2, h]

/-- Claim C1 counterexample: at the concrete registration failure
"registration failed", winRouterUp terminates the process via log.Fatalf
instead of returning the failure to its caller as an error. -/
theorem claim_C1_counterexample :
    winRouterUp (Except.error "registration failed") =
        UpOutcome.processFatal "MonitorDefaultRoutes: registration failed" ∧
      winRouterUp (Except.error "registration failed") ≠
        UpOutcome.returnedErr "registration failed" := by
  constructor
  · rfl
  · decide

/-- Claim C1 (amended): when route-monitor registration fails, Up
terminates the process via log.Fatalf with the registration error
rather than returning it; on success it stores the handle and returns
nil. No usable partial up state results in either case. -/
theorem claim_C1_amended :
    (∀ e : String,
        winRouterUp (Except.error e) =
          UpOutcome.processFatal ("MonitorDefaultRoutes: " ++ e)) ∧
      (∀ h : Nat, winRouterUp (Except.ok h) = UpOutcome.ok (some h)) :=
  ⟨fun _ => rfl, fun _ => rfl⟩

/-- Claim C5: the implementation classifier returns the legacy
implementation exactly when the probe ran and exited with status 99;
exit 0, any other exit code, and failure to run all yield the modern
(openresolv) implementation. -/
theorem claim_C5 (p : ProbeResult) :
    getResolvconfImplementation p = resolvconfImplementation.resolvconfLegacy ↔
      p = ProbeResult.ranExit 99 := by
  cases p with
  | failedToRun => simp [getResolvconfImplementation]
  | ranExit code =>
      simp only [getResolvconfImplementation]
      by_cases h0 : code = 0
      · subst h0; simp
      · by_cases h99 : code = 99
        · subst h99; simp
        · simp [h0, h99]

/-- Claim C8: for every behavior of configureInterface, Set with a nil
configuration produces the same end result as Set with the canonical
shutdown configuration, and its outcome is exactly the outcome of
applying configureInterface to shutdownConfig, so nil is never an error
by itself. -/
theorem claim_C8 (configureInterface : RouterConfig → Except String Unit) :
    winRouterSet configureInterface none =
        winRouterSet configureInterface (some shutdownConfig) ∧
      winRouterSet configureInterface none = configureInterface shutdownConfig := by
  refine ⟨rfl, ?_⟩
  cases h : configureInterface shutdownConfig with
  | error e => simp [winRouterSet, h]
  | ok u => cases u; simp [winRouterSet, h]

/-- Claim C9 counterexample: with a registered handle 7, the second
Close is not a no-op: it invokes Unregister on the handle again, so two
Close calls in a row invoke Unregister twice, not exactly once. -/
theorem claim_C9_counterexample :
    (winRouterClose ((winRouterClose ⟨some 7⟩).1)).2.1 = [7] ∧
      ((winRouterClose ⟨some 7⟩).2.1 ++
          (winRouterClose ((winRouterClose ⟨some 7⟩).1)).2.1).length = 2 := by
  decide

/-- Claim C9 (amended): Close always returns no error and leaves the
router state unchanged; because the stored handle is never cleared, a
second Close issues exactly the same Unregister invocations as the
first, rather than being a no-op that unregisters only once. -/
theorem claim_C9_amended (s : WinRouterState) :
    (winRouterClose s).2.2 = Except.ok () ∧
      (winRouterClose s).1 = s ∧
      (winRouterClose ((winRouterClose s).1)).2.1 = (winRouterClose s).2.1 := by
  rcases s with ⟨cb⟩
  cases cb <;> simp [winRouterClose]

/-- Claim C10: when the bus connection succeeds but the tunnel interface
cannot be found, Down returns the same retryable errNotReady error as Up
does, reports no success, and issues no bus call (in particular no
RevertLink). -/
theorem claim_C10 (config : DNSConfig) (env : ResolvedBusEnv)
    (hbus : env.busOk = true) (hif : env.iface = IfaceLookup.notFound) :
    dnsResolvedDown env = ([], Except.error errNotReady) ∧
      dnsResolvedUp config env = ([], Except.error errNotReady) := by
  constructor
  · simp [dnsResolvedDown, hbus, hif]
  · simp [dnsResolvedUp, hbus, hif]

/-- Witness for claim C10 at a concrete environment. -/
theorem claim_C10_witness :
    dnsResolvedDown ⟨true, IfaceLookup.notFound, true, true, true⟩ =
        ([], Except.error errNotReady) ∧
      dnsResolvedUp ⟨[], []⟩ ⟨true, IfaceLookup.notFound, true, true, true⟩ =
        ([], Except.error errNotReady) :=
  claim_C10 ⟨[], []⟩ ⟨true, IfaceLookup.notFound, true, true, true⟩ rfl rfl

/-- Claim C2: the detector selects the resolved backend exactly when the
service-manager query reports the resolved service active (systemctl
present and is-active succeeding) and the resolver file read yields the
single well-known stub address 127.0.0.53 as sole nameserver; any
additional nameserver therefore prevents selection even with the service
active. -/
theorem claim_C2 (renv : ResolvedDetectEnv) (cenv : ResolvconfDetectEnv) (p : ProbeResult) :
    detectBackend renv cenv p = BackendKind.resolved ↔
      (renv.systemctlInstalled && renv.isActiveRunOk) = true ∧
        ∃ c, renv.resolvConf = some c ∧ c.Nameservers = [resolvedListenAddr] := by
  rw [detectBackend_eq_resolved_iff, resolvedIsActive_iff, Bool.and_eq_true]
  tauto

/-- The scanner loop of resolvconfIsActive reports true exactly when
some line of the leading comment block contains the token
"resolvconf". -/
theorem resolvconfScan_iff (lines : List (List Char)) :
    resolvconfScan lines = true ↔
      ∃ l, l ∈ commentBlock lines ∧ containsSub resolvconfWord l = true := by
  induction lines with
  | nil => simp [resolvconfScan, commentBlock]
  | cons line rest ih =>
      by_cases hd : isDataLine line
      · simp [resolvconfScan, commentBlock, hd]
      · by_cases hc : containsSub resolvconfWord line
        · simp only [resolvconfScan, commentBlock, hd, if_false, hc, if_true]
          exact ⟨fun _ => ⟨line, by simp, hc⟩, fun _ => rfl⟩
        · simp only [resolvconfScan, commentBlock, hd, hc, Bool.false_eq_true, if_false]
          rw [ih]
          constructor
          · rintro ⟨l, hl, hcl⟩
            exact ⟨l, by simp [hl], hcl⟩
          · rintro ⟨l, hl, hcl⟩
            rcases List.mem_cons.mp hl with h | h
            · subst h; exact absurd hcl (by simp [hc])
            · exact ⟨l, h, hcl⟩

/-- Declarative characterization of the resolvconf probe: it reports
active exactly when the binary is installed and some line of the
resolver file's leading comment block contains the token
"resolvconf". -/
theorem resolvconfIsActive_iff (cenv : ResolvconfDetectEnv) :
    resolvconfIsActive cenv = true ↔
      cenv.binInstalled = true ∧
        ∃ lines, cenv.resolvFile = some lines ∧
          ∃ l, l ∈ commentBlock lines ∧ containsSub resolvconfWord l = true := by
  rcases cenv with ⟨bi, rf⟩
  cases bi
  · simp [resolvconfIsActive]
  · cases rf with
    | none => simp [resolvconfIsActive]
    | some lines => simp [resolvconfIsActive, resolvconfScan_iff]

/-- Claim C3 counterexample: for the single file whose comment block
says "Generated by resolvconf" and whose sole nameserver is the
resolved stub 127.0.0.53, with the resolvconf binary installed and the
resolved service reported active, the claim's right-hand side holds
(binary installed, comment-block line containing "resolvconf"), yet the
detector selects resolved, not a resolvconf backend: the claimed
biconditional is false at detector level. -/
theorem claim_C3_counterexample :
    ("# Generated by resolvconf".toList ∈ commentBlock
        ["# Generated by resolvconf".toList, "nameserver 127.0.0.53".toList]) ∧
      containsSub resolvconfWord ("# Generated by resolvconf".toList) = true ∧
      detectBackend ⟨true, true, some ⟨[resolvedListenAddr], []⟩⟩
          ⟨true, some ["# Generated by resolvconf".toList, "nameserver 127.0.0.53".toList]⟩
          (ProbeResult.ranExit 0) = BackendKind.resolved := by
  decide

/-- Claim C3 (amended): the detector selects a resolvconf backend if
and only if the resolved probe does not claim the resolver file first,
a resolvconf binary is installed, and some line of the resolver file's
leading comment block contains the literal token "resolvconf"; in
particular, on the file generated by resolvconf with nameserver
10.0.0.1 and the binary present, a resolvconf variant (not direct) is
selected, whatever the service-manager state and probe outcome. -/
theorem claim_C3_amended (renv : ResolvedDetectEnv) (cenv : ResolvconfDetectEnv)
    (p : ProbeResult) :
    ((detectBackend renv cenv p).isResolvconfVariant = true ↔
      resolvedIsActive renv = false ∧ cenv.binInstalled = true ∧
        ∃ lines, cenv.resolvFile = some lines ∧
          ∃ l, l ∈ commentBlock lines ∧ containsSub resolvconfWord l = true) ∧
      (∀ (b1 b2 : Bool) (q : ProbeResult),
        (detectBackend ⟨b1, b2, some ⟨[IP.v4 10 0 0 1], []⟩⟩
            ⟨true, some ["# Generated by resolvconf".toList, "nameserver 10.0.0.1".toList]⟩
            q).isResolvconfVariant = true) := by
  constructor
  · by_cases hres : resolvedIsActive renv
    · simp [detectBackend, hres, BackendKind.isResolvconfVariant]
    · have hres' : resolvedIsActive renv = false := by simpa using hres
      by_cases hconf : resolvconfIsActive cenv
      · have hchar := (resolvconfIsActive_iff cenv).mp hconf
        simp only [detectBackend, hres', Bool.false_eq_true, if_false, hconf, if_true]
        cases hg : getResolvconfImplementation p <;>
          simp [BackendKind.isResolvconfVariant, hres', hchar]
      · have hconf' : resolvconfIsActive cenv = false := by simpa using hconf
        have hnot := (resolvconfIsActive_iff cenv).not.mp (by simp [hconf'])
        simp only [detectBackend, hres', hconf', Bool.false_eq_true, if_false]
        simp only [BackendKind.isResolvconfVariant, Bool.false_eq_true, false_iff]
        intro hcontra
        exact hnot ⟨hcontra.2.1, hcontra.2.2⟩
  · intro b1 b2 q
    have hres : resolvedIsActive ⟨b1, b2, some ⟨[IP.v4 10 0 0 1], []⟩⟩ = false := by
      cases b1 <;> cases b2 <;> decide
    have hconf : resolvconfIsActive
        ⟨true, some ["# Generated by resolvconf".toList, "nameserver 10.0.0.1".toList]⟩ = true := by
      decide
    simp only [detectBackend, hres, Bool.false_eq_true, if_false, hconf, if_true]
    cases hg : getResolvconfImplementation q <;> simp [BackendKind.isResolvconfVariant]

/-- Claim C4 counterexample: for the file whose comment block mentions
resolvconf but whose first non-comment line "nameserver 10.0.0.1" does
not, the detector still selects a resolvconf variant, so the
first-non-comment-line wording of the claim is false on the code. -/
theorem claim_C4_counterexample :
    firstDataLine ["# resolvconf".toList, "nameserver 10.0.0.1".toList] =
        some ("nameserver 10.0.0.1".toList) ∧
      containsSub resolvconfWord ("nameserver 10.0.0.1".toList) = false ∧
      (detectBackend ⟨true, true, some ⟨[IP.v4 10 0 0 1], []⟩⟩
          ⟨true, some ["# resolvconf".toList, "nameserver 10.0.0.1".toList]⟩
          (ProbeResult.ranExit 0)).isResolvconfVariant = true := by
  decide

/-- Claim C4 (amended): for all resolver-file contents whose leading
comment block contains no mention of the token "resolvconf", the
detector does not select a resolvconf mechanism, regardless of what the
rest of the file (in particular its data lines) says. -/
theorem claim_C4_amended (renv : ResolvedDetectEnv) (cenv : ResolvconfDetectEnv)
    (p : ProbeResult) (lines : List (List Char))
    (hfile : cenv.resolvFile = some lines)
    (hnone : ∀ l, l ∈ commentBlock lines → containsSub resolvconfWord l = false) :
    (detectBackend renv cenv p).isResolvconfVariant = false := by
  have hscan : resolvconfScan lines = false := by
    by_cases h : resolvconfScan lines = true
    · rcases (resolvconfScan_iff lines).mp h with ⟨l, hl, hcl⟩
      rw [hnone l hl] at hcl
      exact absurd hcl (by simp)
    · simpa using h
  have hact : resolvconfIsActive cenv = false := by
    rcases cenv with ⟨bi, rf⟩
    simp only at hfile
    subst hfile
    cases bi <;> simp [resolvconfIsActive, hscan]
  unfold detectBackend
  by_cases hres : resolvedIsActive renv
  · simp [hres, BackendKind.isResolvconfVariant]
  · simp [hres, hact, BackendKind.isResolvconfVariant]

/-- Witness for the amended claim C4 at a concrete file whose comment
block does not mention resolvconf. -/
theorem claim_C4_amended_witness :
    (detectBackend ⟨true, true, some ⟨[IP.v4 10 0 0 1], []⟩⟩
        ⟨true, some ["# hello".toList, "nameserver 10.0.0.1".toList]⟩
        (ProbeResult.ranExit 0)).isResolvconfVariant = false :=
  claim_C4_amended ⟨true, true, some ⟨[IP.v4 10 0 0 1], []⟩⟩
    ⟨true, some ["# hello".toList, "nameserver 10.0.0.1".toList]⟩
    (ProbeResult.ranExit 0)
    ["# hello".toList, "nameserver 10.0.0.1".toList]
    rfl (by decide)

/-- Claim C6: when the bus is reachable, Up returns errNotReady and
issues no bus call if the tunnel interface cannot be found; otherwise
(interface found, both calls succeeding) it issues exactly the ordered
pair SetLinkDNS then SetLinkDomains, where each IPv4 nameserver is
tagged AF_INET with its 4 address bytes, each IPv6 nameserver is tagged
AF_INET6 with its 16 bytes, and every domain is flagged
RoutingOnly = false. -/
theorem claim_C6 (config : DNSConfig) (env : ResolvedBusEnv) :
    (env.busOk = true → env.iface = IfaceLookup.notFound →
        dnsResolvedUp config env = ([], Except.error errNotReady)) ∧
      (∀ idx : Int, env.busOk = true → env.iface = IfaceLookup.found idx →
        env.setLinkDNSOk = true → env.setLinkDomainsOk = true →
        dnsResolvedUp config env =
          ([BusCall.setLinkDNS idx (config.Nameservers.map linkNameserverOf),
            BusCall.setLinkDomains idx
              (config.Domains.map (fun d => resolvedLinkDomain.mk d false))],
            Except.ok ())) ∧
      (∀ a b c d : Nat,
        linkNameserverOf (IP.v4 a b c d) = ⟨AF_INET, [a, b, c, d]⟩) ∧
      (∀ bs : List Nat, linkNameserverOf (IP.v6 bs) = ⟨AF_INET6, bs⟩) := by
  refine ⟨?_, ?_, ?_, ?_⟩
  · intro hbus hif
    simp [dnsResolvedUp, hbus, hif]
  · intro idx hbus hif h1 h2
    simp [dnsResolvedUp, hbus, hif, h1, h2]
  · intro a b c d; rfl
  · intro bs; rfl

/-- Witness for claim C6 on a concrete config with one IPv4 and one
IPv6 nameserver and one search domain. -/
theorem claim_C6_witness :
    dnsResolvedUp ⟨[IP.v4 8 8 8 8, IP.v6 (List.replicate 16 1)], ["example.com"]⟩
        ⟨true, IfaceLookup.found 5, true, true, true⟩ =
      ([BusCall.setLinkDNS 5
          [⟨AF_INET, [8, 8, 8, 8]⟩, ⟨AF_INET6, List.replicate 16 1⟩],
        BusCall.setLinkDomains 5 [⟨"example.com", false⟩]],
        Except.ok ()) := by
  have h := (claim_C6 ⟨[IP.v4 8 8 8 8, IP.v6 (List.replicate 16 1)], ["example.com"]⟩
    ⟨true, IfaceLookup.found 5, true, true, true⟩).2.1 5 rfl rfl rfl rfl
  simpa [linkNameserverOf, IP.As16, IP.Is4] using h

/-- Claim C7 counterexample: the resolvconf applier's Up runs its child
commands (the probe and the add command) with no timeout attached, so
not every applier child operation is bounded by an explicit timeout. -/
theorem claim_C7_counterexample :
    ((dnsResolvconfUp ⟨[], []⟩ ⟨ProbeResult.ranExit 0, true, true⟩).1.all
        (fun op => op.timeoutMs.isSome)) = false := by
  decide

/-- Claim C7 (amended): the resolved applier's bus round-trips (Up and
Down) are each bounded by the explicit one-second dnsReconfigTimeout,
while the resolvconf applier's external command executions (probe, add,
delete) are run with no timeout attached. -/
theorem claim_C7_amended (config : DNSConfig) (env : ResolvedBusEnv) (cenv : ResolvconfEnv) :
    ((dnsResolvedUpChildOps config env).all
        (fun op => op.timeoutMs == some dnsReconfigTimeoutMs) = true) ∧
      ((dnsResolvedDownChildOps env).all
        (fun op => op.timeoutMs == some dnsReconfigTimeoutMs) = true) ∧
      ((dnsResolvconfUp config cenv).1.all (fun op => op.timeoutMs == none) = true) ∧
      ((dnsResolvconfDown cenv).1.all (fun op => op.timeoutMs == none) = true) := by
  have hbusOp : ∀ l : List BusCall,
      (l.map childOpOfBusCall).all
        (fun op => op.timeoutMs == some dnsReconfigTimeoutMs) = true := by
    intro l
    rw [List.all_eq_true]
    intro op hop
    rcases List.mem_map.mp hop with ⟨c, _, rfl⟩
    cases c <;> rfl
  refine ⟨hbusOp _, hbusOp _, ?_, ?_⟩
  · cases hadd : cenv.addCmdOk <;>
      cases himpl : getResolvconfImplementation cenv.probe <;>
        simp [dnsResolvconfUp, hadd, himpl, resolvconfProbeCmd, resolvconfAddCmd]
  · cases hdel : cenv.delCmdOk <;>
      cases himpl : getResolvconfImplementation cenv.probe <;>
        simp [dnsResolvconfDown, hdel, himpl, resolvconfProbeCmd, resolvconfDelCmd]

end TailscaleRouter
